import Mathlib

/-!
Verification development for a JIRA-to-test-artifact generator
(`jira_service.py`, `test_generator.py`, `server.py`).

The Python source is shallowly embedded: dict-shaped payloads become
structures, the impure pieces become explicit parameters
(`datetime.now()` becomes a `date : String` argument, HTTP fetch results
become `Except` values), and file writes become explicit
`(path, content)` lists returned by the functions that perform them.
Python's `re` matching for the specific patterns used by the source is
modelled by a small backtracking matcher with Python's
leftmost-match / lazy-vs-greedy preference semantics.
-/

namespace JiraMCP

/-- Python `\s` on the ASCII range (the unicode whitespace extras are not
modelled; no claim depends on them). -/
def pyIsSpace (c : Char) : Bool :=
  c == ' ' || c == '\t' || c == '\n' || c == '\r' || c == '\x0b' || c == '\x0c'

/-- Python `str.strip()`: drop leading and trailing whitespace. -/
def pyStrip (s : String) : String :=
  String.mk (((s.toList.dropWhile pyIsSpace).reverse.dropWhile pyIsSpace).reverse)

/-- Python `str.lower()` (ASCII case mapping). -/
def pyLower (s : String) : String :=
  String.mk (s.toList.map Char.toLower)

/-- Python slicing `s[:n]` (by code point, as Python indexes `str`). -/
def pyTake (n : Nat) (s : String) : String :=
  String.mk (s.toList.take n)

/-- `needle` is a prefix of `hay` (used to model Python's `in` operator). -/
def isPrefixSeq : List Char → List Char → Bool
  | [], _ => true
  | _ :: _, [] => false
  | a :: as, b :: bs => a == b && isPrefixSeq as bs

/-- `needle` occurs as a contiguous subsequence of `hay`. -/
def containsSeq (needle : List Char) : List Char → Bool
  | [] => isPrefixSeq needle []
  | hay@(_ :: rest) => isPrefixSeq needle hay || containsSeq needle rest

/-- Python's `needle in hay` substring test. -/
def containsStr (hay needle : String) : Bool :=
  containsSeq needle.toList hay.toList

/-- `pathlib.Path` joining, modelled as plain `/`-separated concatenation
(Path normalization such as stripping a leading `./` is not modelled; the
claims concern file names and contents, not path normal forms). -/
def pathJoin (dir name : String) : String :=
  dir ++ "/" ++ name

/-- Python `str.title()` on the ASCII range. -/
def pyTitleAux : Bool → List Char → List Char
  | _, [] => []
  | prevAlpha, c :: rest =>
    (if c.isAlpha then (if prevAlpha then c.toLower else c.toUpper) else c)
      :: pyTitleAux c.isAlpha rest

def pyTitle (s : String) : String :=
  String.mk (pyTitleAux false s.toList)

/-!
## A small backtracking matcher

Each combinator consumes from a `List Char` and calls a continuation;
alternatives are tried in Python's preference order (lazy `*?` shortest
first, greedy `\s+`/`\s*`/`?` longest first, alternation left branch
first), so the first success is exactly the match Python's `re` engine
returns.
-/

/-- Case-insensitive literal (the source compiles all patterns with
`re.IGNORECASE`). Returns the rest of the input after the literal. -/
def litCI : List Char → List Char → Option (List Char)
  | [], cs => some cs
  | _ :: _, [] => none
  | p :: ps, c :: cs => if p.toLower == c.toLower then litCI ps cs else none

/-- Greedy `\s*`: consume as much whitespace as possible, backtracking to
shorter consumptions when the continuation fails. -/
def spaceStarK {α : Type} (k : List Char → Option α) : List Char → Option α
  | [] => k []
  | c :: cs =>
    if pyIsSpace c then
      match spaceStarK k cs with
      | some r => some r
      | none => k (c :: cs)
    else k (c :: cs)

/-- Greedy `\s+`: one mandatory whitespace character then greedy `\s*`. -/
def spacePlusK {α : Type} (k : List Char → Option α) (cs : List Char) : Option α :=
  match cs with
  | [] => none
  | c :: rest => if pyIsSpace c then spaceStarK k rest else none

/-- Lazy capturing `(.*?)` under `re.DOTALL`: offer the shortest capture
first, growing one character (newlines included) at a time. -/
def lazyCapAux {α : Type} (k : String → List Char → Option α) :
    List Char → List Char → Option α
  | acc, [] => k (String.mk acc.reverse) []
  | acc, c :: rest =>
    match k (String.mk acc.reverse) (c :: rest) with
    | some r => some r
    | none => lazyCapAux k (c :: acc) rest

/-- Lazy non-capturing `.*?` under `re.DOTALL`. -/
def lazyGapK {α : Type} (k : List Char → Option α) : List Char → Option α
  | [] => k []
  | c :: rest =>
    match k (c :: rest) with
    | some r => some r
    | none => lazyGapK k rest

/-- `(?:\n|$)`: a newline (consumed) is preferred; `$` (no consumption)
matches at end of input or just before a final newline, as in Python
without `re.MULTILINE`. -/
def nlOrEndK {α : Type} (k : List Char → Option α) (cs : List Char) : Option α :=
  match (match cs with
         | '\n' :: rest => k rest
         | _ => none) with
  | some r => some r
  | none => if cs = [] ∨ cs = ['\n'] then k cs else none

/-- `(?:\n\n|$)`: a blank line (consumed) is preferred, else `$`. -/
def nlnlOrEndK {α : Type} (k : List Char → Option α) (cs : List Char) : Option α :=
  match (match cs with
         | '\n' :: '\n' :: rest => k rest
         | _ => none) with
  | some r => some r
  | none => if cs = [] ∨ cs = ['\n'] then k cs else none

/-- Greedy optional character, case-insensitive (for `[s]?` / `:?`). -/
def optCharCI {α : Type} (c : Char) (k : List Char → Option α) (cs : List Char) :
    Option α :=
  match cs with
  | [] => k []
  | x :: rest =>
    if x.toLower == c.toLower then
      match k rest with
      | some r => some r
      | none => k cs
    else k cs

/-- `re.finditer` driver: scan left to right; at each position try the
matcher, emit the match and resume at the match end (every pattern in the
source starts with a nonempty literal, so matches are nonempty; the
`cs.drop 1` arm mirrors Python's empty-match rule and is unreachable).
The fuel is bounded by the input length plus one, which the strictly
shrinking input never exhausts. -/
def findIterAux {α : Type} (m : List Char → Option (α × List Char)) :
    Nat → List Char → List α
  | 0, _ => []
  | fuel + 1, cs =>
    match m cs with
    | some (a, rem) =>
      if rem.length < cs.length then a :: findIterAux m fuel rem
      else a :: findIterAux m fuel (cs.drop 1)
    | none =>
      match cs with
      | [] => []
      | _ :: rest => findIterAux m fuel rest

def findIter {α : Type} (m : List Char → Option (α × List Char)) (s : String) :
    List α :=
  findIterAux m (s.toList.length + 1) s.toList

/-- One attempt of the Given-When-Then pattern
`given\s+(.*?)(?:\n|$).*?when\s+(.*?)(?:\n|$).*?then\s+(.*?)(?:\n|$)`
(`re.IGNORECASE | re.DOTALL`) at the start of the input. -/
def matchGWT (cs : List Char) : Option ((String × String × String) × List Char) :=
  (litCI "given".toList cs).bind fun csA =>
  spacePlusK
    (fun csB => lazyCapAux
      (fun g csC => nlOrEndK
        (fun csD => lazyGapK
          (fun csE => (litCI "when".toList csE).bind fun csF =>
            spacePlusK
              (fun csG => lazyCapAux
                (fun w csH => nlOrEndK
                  (fun csI => lazyGapK
                    (fun csJ => (litCI "then".toList csJ).bind fun csK =>
                      spacePlusK
                        (fun csL => lazyCapAux
                          (fun t csM => nlOrEndK
                            (fun csN => some ((g, w, t), csN)) csM)
                          [] csL)
                        csK)
                    csI)
                  csH)
                [] csG)
              csF)
          csD)
        csC)
      [] csB)
    csA

/-- All Given-When-Then matches in a string (`gwt_pattern.finditer`). -/
def gwtFindAll (s : String) : List (String × String × String) :=
  findIter matchGWT s

/-- `test\s+case[s]?:?\s*(.*?)(?:\n\n|$)` -/
def matchTestCase (cs : List Char) : Option (String × List Char) :=
  (litCI "test".toList cs).bind fun c1 =>
  spacePlusK (fun c2 =>
    (litCI "case".toList c2).bind fun c3 =>
    optCharCI 's' (fun c4 =>
      optCharCI ':' (fun c5 =>
        spaceStarK (fun c6 =>
          lazyCapAux (fun g c7 =>
            nlnlOrEndK (fun c8 => some (g, c8)) c7) [] c6) c5) c4) c3) c1

/-- `scenario[s]?:?\s*(.*?)(?:\n\n|$)` -/
def matchScenarioKw (cs : List Char) : Option (String × List Char) :=
  (litCI "scenario".toList cs).bind fun c1 =>
  optCharCI 's' (fun c2 =>
    optCharCI ':' (fun c3 =>
      spaceStarK (fun c4 =>
        lazyCapAux (fun g c5 =>
          nlnlOrEndK (fun c6 => some (g, c6)) c5) [] c4) c3) c2) c1

/-- `edge\s+case[s]?:?\s*(.*?)(?:\n\n|$)` -/
def matchEdgeCase (cs : List Char) : Option (String × List Char) :=
  (litCI "edge".toList cs).bind fun c1 =>
  spacePlusK (fun c2 =>
    (litCI "case".toList c2).bind fun c3 =>
    optCharCI 's' (fun c4 =>
      optCharCI ':' (fun c5 =>
        spaceStarK (fun c6 =>
          lazyCapAux (fun g c7 =>
            nlnlOrEndK (fun c8 => some (g, c8)) c7) [] c6) c5) c4) c3) c1

/-- `acceptance\s+criteria:?\s*(.*?)(?:\n\n|$)` -/
def matchAcceptance (cs : List Char) : Option (String × List Char) :=
  (litCI "acceptance".toList cs).bind fun c1 =>
  spacePlusK (fun c2 =>
    (litCI "criteria".toList c2).bind fun c3 =>
    optCharCI ':' (fun c4 =>
      spaceStarK (fun c5 =>
        lazyCapAux (fun g c6 =>
          nlnlOrEndK (fun c7 => some (g, c7)) c6) [] c5) c4) c3) c1

/-- `should\s+(.*?)(?:\n|$)` -/
def matchShould (cs : List Char) : Option (String × List Char) :=
  (litCI "should".toList cs).bind fun c1 =>
  spacePlusK (fun c2 =>
    lazyCapAux (fun g c3 =>
      nlOrEndK (fun c4 => some (g, c4)) c3) [] c2) c1

/-- `verify\s+(.*?)(?:\n|$)` -/
def matchVerify (cs : List Char) : Option (String × List Char) :=
  (litCI "verify".toList cs).bind fun c1 =>
  spacePlusK (fun c2 =>
    lazyCapAux (fun g c3 =>
      nlOrEndK (fun c4 => some (g, c4)) c3) [] c2) c1

/-- `ensure\s+(.*?)(?:\n|$)` -/
def matchEnsure (cs : List Char) : Option (String × List Char) :=
  (litCI "ensure".toList cs).bind fun c1 =>
  spacePlusK (fun c2 =>
    lazyCapAux (fun g c3 =>
      nlOrEndK (fun c4 => some (g, c4)) c3) [] c2) c1

/-!
## Data model

Dict-shaped Python payloads become structures.  `then` is a Lean keyword,
so the `TestScenario.then` field is named `then_`.
-/

/-- `TestScenario` from `test_generator.py`. -/
structure TestScenario where
  scenario : String
  given : List String
  when : List String
  then_ : List String
deriving DecidableEq, Repr

/-- A comment body: either plain text or an Atlassian Document Format
(ADF) tree, a node with an optional `text` field and a `content` list. -/
inductive AdfNode where
  | node (text : Option String) (content : List AdfNode)

/-- One JIRA comment: `author.displayName` (defaulting applied upstream)
and `body`. -/
structure Comment where
  author : String
  body : AdfNode ⊕ String

/-- A fetched ticket after `get_ticket_with_discussions` enrichment:
`key`, `fields.description`, `fields.summary` (each defaulting to `""`
when absent, per `fields.get(..., "")`), plus the `discussions` and
`discussion_summary` keys the service adds. -/
structure Ticket where
  key : String
  description : String
  summary : String
  discussions : List Comment
  discussion_summary : String

/-- The dict returned by `analyze_requirements`. -/
structure Analysis where
  ticket_key : String
  summary : String
  discussion_summary : String
  test_scenarios : List TestScenario
  estimated_test_count : Nat
  complexity : String
deriving DecidableEq, Repr

/-!
## `jira_service.py`
-/

mutual

/-- `_extract_text_from_adf`'s depth-first text collection. -/
def AdfNode.texts : AdfNode → List String
  | .node t cs => (match t with | some s => [s] | none => []) ++ AdfNode.textsList cs

def AdfNode.textsList : List AdfNode → List String
  | [] => []
  | n :: ns => n.texts ++ AdfNode.textsList ns

end

/-- `_extract_text_from_adf`: concatenate every embedded text field,
depth-first, joined with single spaces. -/
def extract_text_from_adf (adf : AdfNode) : String :=
  String.intercalate " " adf.texts

/-- `_summarize_discussions`: format each comment with a nonempty body as
`"{author}: {text}"` and join with blank lines. -/
def summarize_discussions (comments : List Comment) : String :=
  let points := comments.filterMap fun c =>
    let text := match c.body with
      | Sum.inl adf => extract_text_from_adf adf
      | Sum.inr s => s
    if pyStrip text ≠ "" then some (c.author ++ ": " ++ pyStrip text) else none
  String.intercalate "\n\n" points

/-- The raw ticket dict `fetch_ticket` returns (before enrichment). -/
structure TicketDict where
  key : String
  description : String
  summary : String
deriving DecidableEq, Repr

/-- `get_ticket_with_discussions`: the two network calls are passed in as
`Except` values (`.error` models the raised `ValueError`).  A ticket-fetch
failure propagates; a comment-fetch failure is absorbed, returning the
ticket with empty discussions and empty discussion summary. -/
def get_ticket_with_discussions (fetchResult : Except String TicketDict)
    (commentsResult : Except String (List Comment)) : Except String Ticket :=
  match fetchResult with
  | .error e => .error e
  | .ok t =>
    match commentsResult with
    | .ok comments =>
      .ok ⟨t.key, t.description, t.summary, comments, summarize_discussions comments⟩
    | .error _ =>
      .ok ⟨t.key, t.description, t.summary, [], ""⟩

/-!
## `test_generator.py`: requirement extraction
-/

/-- The scenario built for one Given-When-Then match
(`TestScenario(scenario=f"Scenario: {summary}", given=[g.strip()], ...)`). -/
def mkGwtScenario (summary : String) (m : String × String × String) : TestScenario :=
  ⟨"Scenario: " ++ summary, [pyStrip m.1], [pyStrip m.2.1], [pyStrip m.2.2]⟩

/-- The scenarios produced by the Given-When-Then pass of
`_extract_test_scenarios` over the combined text. -/
def gwt_scenarios (combined summary : String) : List TestScenario :=
  (gwtFindAll combined).map (mkGwtScenario summary)

/-- Captured texts of the seven discussion keyword patterns, in the
source's pattern order, each pattern's matches in text order. -/
def discussionPatternTexts (ds : String) : List String :=
  findIter matchTestCase ds ++ findIter matchScenarioKw ds ++
  findIter matchEdgeCase ds ++ findIter matchAcceptance ds ++
  findIter matchShould ds ++ findIter matchVerify ds ++ findIter matchEnsure ds

/-- The scenario built from one discussion keyword match. -/
def discussionScenario (text : String) : TestScenario :=
  ⟨"Scenario from discussion: " ++ pyTake 100 text,
   ["User is on the application"],
   ["User performs: " ++ pyTake 150 text],
   ["Expected behavior should match the discussion requirement"]⟩

/-- `_extract_scenarios_from_discussions` (its `summary` parameter is
unused in the source as well). -/
def extract_scenarios_from_discussions (discussion_summary summary : String) :
    List TestScenario :=
  (((discussionPatternTexts discussion_summary).map pyStrip).filter
    (fun t => t != "" && decide (10 < t.length))).map discussionScenario

/-- The fallback scenario synthesized when extraction finds nothing. -/
def fallbackScenario (summary : String) : TestScenario :=
  ⟨"Test " ++ summary,
   ["User is on the application"],
   ["User performs the action described in ticket"],
   ["Expected behavior occurs as per ticket description"]⟩

/-- The scenario list of `_extract_test_scenarios` before the fallback
check: Given-When-Then matches over the combined text
(`f"{description}\n\n{discussion_summary}"`), then discussion-derived
scenarios when the discussion summary is nonempty (Python truthiness). -/
def combined_scenarios (description summary discussion_summary : String) :
    List TestScenario :=
  gwt_scenarios (description ++ "\n\n" ++ discussion_summary) summary ++
  (if discussion_summary ≠ "" then
    extract_scenarios_from_discussions discussion_summary summary
   else [])

/-- `_extract_test_scenarios`. -/
def extract_test_scenarios (description summary : String)
    (discussion_summary : String := "") : List TestScenario :=
  if combined_scenarios description summary discussion_summary = [] then
    [fallbackScenario summary]
  else combined_scenarios description summary discussion_summary

/-- `_calculate_complexity`. -/
def calculate_complexity (scenarios : List TestScenario) (description : String) :
    String :=
  if scenarios.length ≤ 2 ∧ description.length < 500 then "low"
  else if scenarios.length ≤ 5 ∧ description.length < 1500 then "medium"
  else "high"

/-- `analyze_requirements`. -/
def analyze_requirements (ticket : Ticket) : Analysis :=
  let scenarios :=
    extract_test_scenarios ticket.description ticket.summary ticket.discussion_summary
  { ticket_key := ticket.key
    summary := ticket.summary
    discussion_summary := ticket.discussion_summary
    test_scenarios := scenarios
    estimated_test_count := scenarios.length
    complexity := calculate_complexity scenarios ticket.description }


/-!
## `test_generator.py`: document rendering

The long template literals below are transcribed verbatim from the
source's f-strings (`\x7b`/`\x7d` are literal braces, `\x27` literal
apostrophes); `{'='*80}` and `{'─'*80}` become `eqLine` / `dashLine`.
-/

/-- `'='*80`. -/
def eqLine : String := String.mk (List.replicate 80 '=')

/-- `'─'*80`. -/
def dashLine : String := String.mk (List.replicate 80 '─')

/-- `", ".join(...)`. -/
def commaJoin (l : List String) : String := String.intercalate ", " l

/-- Python `str.upper()` (ASCII case mapping). -/
def pyUpper (s : String) : String := String.mk (s.toList.map Char.toUpper)

/-- `ticket_key.replace("-", "_")`. -/
def replaceDashUnderscore (s : String) : String :=
  String.mk (s.toList.map (fun c => if c == '-' then '_' else c))

/-- Python `s.replace("\r\n", "\n")` (left-to-right, non-overlapping). -/
def replaceCRLF : List Char -> List Char
  | '\r' :: '\n' :: rest => '\n' :: replaceCRLF rest
  | c :: rest => c :: replaceCRLF rest
  | [] => []

/-- One entry of the step table built by `_create_manual_test_plan`. -/
structure TestStep where
  step_num : Nat
  action : String
  expected : String
  type_ : String
deriving DecidableEq, Repr

/-- One of the eight fixed supplementary scenarios of
`_generate_additional_test_cases`. -/
structure AdditionalScenario where
  name : String
  objective : String
  steps : List (String × String)
  type_ : String
deriving DecidableEq, Repr

/-- `_expand_action_step`. -/
def expand_action_step (action : String) : String :=
  if action.length < 50 then action ++ " (Provide detailed steps as applicable)"
  else action

/-- `_format_description`. -/
def format_description (description : String) : String :=
  if description = "" then
    "No detailed description available. Refer to ticket summary."
  else
    let formatted := pyStrip (String.mk (replaceCRLF description.toList))
    if 500 < formatted.length then
      pyTake 500 formatted ++ "...\n[See full description in JIRA ticket]"
    else formatted

/-- `_format_discussion_context`. -/
def format_discussion_context (discussion_summary : String) : String :=
  if discussion_summary = "" then "No additional discussions available."
  else
    let formatted := ((discussion_summary.splitOn "\n\n").take 5).filterMap
      (fun d => if pyStrip d != "" then some ("  - " ++ pyStrip d) else none)
    if formatted = [] then "No significant discussion points."
    else String.intercalate "\n" formatted

/-- The list built by `_extract_test_data_requirements` before
deduplication and truncation: three fixed baseline entries, one entry per
matched keyword of the fixed vocabulary, one entry per step whose action
mentions data/value/input. -/
def raw_data_requirements (test_steps : List TestStep) (description : String) :
    List String :=
  let base := ["Valid user credentials for test execution",
               "Test environment access configuration",
               "Sample data matching requirements specifications"]
  let data_keywords := ["email", "username", "password", "name", "address",
                        "phone", "date", "number", "id", "code"]
  let description_lower := if description != "" then pyLower description else ""
  base
  ++ (data_keywords.filter (fun k => containsStr description_lower k)).map
      (fun k => "Valid test " ++ k ++ " data")
  ++ (test_steps.filter (fun step =>
        containsStr (pyLower step.action) "data" ||
        containsStr (pyLower step.action) "value" ||
        containsStr (pyLower step.action) "input")).map
      (fun step => "Data for: " ++ pyTake 60 step.action)

/-- `_extract_test_data_requirements`: `list(set(...))[:10]`.  The set is
modelled by `List.dedup` (Python's set iteration order is unspecified and
not load-bearing); the 10-item cap is applied after deduplication, as in
the source. -/
def extract_test_data_requirements (test_steps : List TestStep)
    (description : String) : List String :=
  ((raw_data_requirements test_steps description).dedup).take 10

/-- The Precondition steps of `_create_manual_test_plan`, numbered from
`n` (the loop keeps one running `step_number`). -/
def given_steps : Nat → List String → List TestStep
  | _, [] => []
  | n, g :: rest =>
    ⟨n, "Verify precondition: " ++ g,
     "Precondition is met and ready for testing", "Precondition"⟩
      :: given_steps (n + 1) rest

/-- The Action steps, numbered from `n`. -/
def when_steps : Nat → List String → List TestStep
  | _, [] => []
  | n, w :: rest =>
    ⟨n, expand_action_step w, "Action completes without errors", "Action"⟩
      :: when_steps (n + 1) rest

/-- The Validation steps, numbered from `n`. -/
def then_steps : Nat → List String → List TestStep
  | _, [] => []
  | n, t :: rest =>
    ⟨n, "Verify: " ++ t, t, "Validation"⟩ :: then_steps (n + 1) rest

/-- The full step table: Preconditions, Actions, Validations, one
trailing Cleanup step, numbered consecutively from 1. -/
def build_test_steps (scenario : TestScenario) : List TestStep :=
  given_steps 1 scenario.given
  ++ when_steps (1 + scenario.given.length) scenario.when
  ++ then_steps (1 + scenario.given.length + scenario.when.length) scenario.then_
  ++ [⟨1 + scenario.given.length + scenario.when.length + scenario.then_.length,
      "Clean up test data and restore initial state",
      "System returns to original state", "Cleanup"⟩]

def java_step_definitions (class_name : String) : String :=
  "package stepdefinitions;\n\nimport io.cucumber.java.en.*;\nimport io.cucumber.java.After;\nimport org.openqa.selenium.WebDriver;\nimport org.openqa.selenium.chrome.ChromeDriver;\nimport org.testng.Assert;\n\npublic class "
  ++ class_name
  ++ "StepDefinitions \x7b\n    private WebDriver driver;\n\n    @Given(\"\x7bstring\x7d\")\n    public void given_step(String step) \x7b\n        System.out.println(\"Given: \" + step);\n        driver = new ChromeDriver();\n        // TODO: Implement step logic\n    \x7d\n\n    @When(\"\x7bstring\x7d\")\n    public void when_step(String step) \x7b\n        System.out.println(\"When: \" + step);\n        // TODO: Implement step logic\n    \x7d\n\n    @Then(\"\x7bstring\x7d\")\n    public void then_step(String step) \x7b\n        System.out.println(\"Then: \" + step);\n        // TODO: Implement assertion logic\n        Assert.assertTrue(true, \"Placeholder assertion\");\n    \x7d\n\n    @After\n    public void tearDown() \x7b\n        if (driver != null) \x7b\n            driver.quit();\n        \x7d\n    \x7d\n\x7d\n"

def java_test_runner (ticket_key class_name : String) : String :=
  "package runners;\n\nimport io.cucumber.testng.AbstractTestNGCucumberTests;\nimport io.cucumber.testng.CucumberOptions;\n\n@CucumberOptions(\n    features = \"src/test/resources/features/"
  ++ ticket_key
  ++ ".feature\",\n    glue = \x7b\"stepdefinitions\"\x7d,\n    plugin = \x7b\n        \"pretty\",\n        \"html:target/cucumber-reports/cucumber.html\",\n        \"json:target/cucumber-reports/cucumber.json\"\n    \x7d,\n    monochrome = true\n)\npublic class "
  ++ class_name
  ++ "TestRunner extends AbstractTestNGCucumberTests \x7b\n\x7d\n"

def java_pom (ticket_key : String) : String :=
  "<?xml version=\"1.0\" encoding=\"UTF-8\"?>\n<project xmlns=\"http://maven.apache.org/POM/4.0.0\"\n         xmlns:xsi=\"http://www.w3.org/2001/XMLSchema-instance\"\n         xsi:schemaLocation=\"http://maven.apache.org/POM/4.0.0\n         http://maven.apache.org/xsd/maven-4.0.0.xsd\">\n    <modelVersion>4.0.0</modelVersion>\n\n    <groupId>com.testautomation</groupId>\n    <artifactId>"
  ++ pyLower ticket_key
  ++ "</artifactId>\n    <version>1.0-SNAPSHOT</version>\n\n    <properties>\n        <maven.compiler.source>11</maven.compiler.source>\n        <maven.compiler.target>11</maven.compiler.target>\n        <selenium.version>4.15.0</selenium.version>\n        <cucumber.version>7.14.0</cucumber.version>\n        <testng.version>7.8.0</testng.version>\n    </properties>\n\n    <dependencies>\n        <dependency>\n            <groupId>org.seleniumhq.selenium</groupId>\n            <artifactId>selenium-java</artifactId>\n            <version>$\x7bselenium.version\x7d</version>\n        </dependency>\n        <dependency>\n            <groupId>io.cucumber</groupId>\n            <artifactId>cucumber-java</artifactId>\n            <version>$\x7bcucumber.version\x7d</version>\n        </dependency>\n        <dependency>\n            <groupId>io.cucumber</groupId>\n            <artifactId>cucumber-testng</artifactId>\n            <version>$\x7bcucumber.version\x7d</version>\n        </dependency>\n        <dependency>\n            <groupId>org.testng</groupId>\n            <artifactId>testng</artifactId>\n            <version>$\x7btestng.version\x7d</version>\n        </dependency>\n    </dependencies>\n</project>\n"

def python_step_definitions : String :=
  "from behave import given, when, then\nfrom selenium import webdriver\nfrom selenium.webdriver.chrome.service import Service\nfrom webdriver_manager.chrome import ChromeDriverManager\n\n@given(u\x27\x7bstep\x7d\x27)\ndef step_given(context, step):\n    print(f\"Given: \x7bstep\x7d\")\n    context.driver = webdriver.Chrome(service=Service(ChromeDriverManager().install()))\n    # TODO: Implement step logic\n\n@when(u\x27\x7bstep\x7d\x27)\ndef step_when(context, step):\n    print(f\"When: \x7bstep\x7d\")\n    # TODO: Implement step logic\n\n@then(u\x27\x7bstep\x7d\x27)\ndef step_then(context, step):\n    print(f\"Then: \x7bstep\x7d\")\n    # TODO: Implement assertion logic\n    assert True, \"Placeholder assertion\"\n\ndef after_scenario(context, scenario):\n    if hasattr(context, \x27driver\x27):\n        context.driver.quit()\n"

def python_requirements : String :=
  "selenium==4.15.0\nbehave==1.2.6\nwebdriver-manager==4.0.1\npytest==7.4.3\nallure-behave==2.13.2\n"

def generate_testng_xml (analysis : Analysis) : String :=
  let class_name := replaceDashUnderscore analysis.ticket_key
  "<?xml version=\"1.0\" encoding=\"UTF-8\"?>\n<!DOCTYPE suite SYSTEM \"http://testng.org/testng-1.0.dtd\">\n<suite name=\""
  ++ analysis.ticket_key
  ++ " Test Suite\" parallel=\"false\">\n    <test name=\""
  ++ analysis.ticket_key
  ++ " Tests\">\n        <classes>\n            <class name=\"runners."
  ++ class_name
  ++ "TestRunner\"/>\n        </classes>\n    </test>\n</suite>\n"

def readme_scenario_block (i : Nat) (s : TestScenario) : String :=
  "### "
  ++ (toString (i+1))
  ++ ". "
  ++ s.scenario
  ++ "\n- **Given**: "
  ++ (commaJoin s.given)
  ++ "\n- **When**: "
  ++ (commaJoin s.when)
  ++ "\n- **Then**: "
  ++ (commaJoin s.then_)

def java_setup_instructions : String :=
  "1. Install Java JDK 11 or higher\n2. Install Maven\n3. Run: `mvn clean install`\n4. Execute tests: `mvn test`"

def python_setup_instructions : String :=
  "1. Install Python 3.8 or higher\n2. Install dependencies: `pip install -r requirements.txt`\n3. Run tests: `behave`"

def generate_readme (analysis : Analysis) (language : String) : String :=
  let setup_instructions := if language = "java" then java_setup_instructions else python_setup_instructions
  let scenarios_text := String.intercalate "\n\n" (analysis.test_scenarios.mapIdx readme_scenario_block)
  "# Test Automation for "
  ++ analysis.ticket_key
  ++ "\n\n## Summary\n"
  ++ analysis.summary
  ++ "\n\n## Test Information\n- **Ticket**: "
  ++ analysis.ticket_key
  ++ "\n- **Estimated Test Count**: "
  ++ (toString analysis.estimated_test_count)
  ++ "\n- **Complexity**: "
  ++ analysis.complexity
  ++ "\n- **Language**: "
  ++ language
  ++ "\n- **Framework**: Selenium + TestNG + Cucumber\n\n## Setup Instructions\n\n### "
  ++ (pyTitle language)
  ++ " Setup\n\n"
  ++ setup_instructions
  ++ "\n\n## Test Scenarios\n\n"
  ++ scenarios_text
  ++ "\n\n## Generated Files\n- Feature file with Gherkin scenarios\n- Step definition implementations\n- Test runner configuration\n- TestNG XML suite configuration\n- Dependencies configuration\n\n## Next Steps\n1. Review generated test scenarios\n2. Implement step definitions with actual test logic\n3. Add page objects for UI elements\n4. Configure test data and environments\n5. Run tests and review results\n\n## Notes\n- Auto-generated test suite based on JIRA ticket "
  ++ analysis.ticket_key
  ++ "\n- Review and enhance test logic as needed\n- Add assertions specific to your application\n- Integrate with CI/CD pipeline\n"

-- header chunk of `_create_manual_test_plan`

def manual_plan_header (ticket_key : String) (test_number : Nat) (scenario_name summary description : String) (total_tests : Nat) (date : String) : String :=
  eqLine
  ++ "\nMANUAL TEST PLAN\n"
  ++ eqLine
  ++ "\n\nTICKET ID:           "
  ++ ticket_key
  ++ "\nTEST ID:             "
  ++ ticket_key
  ++ "_Test"
  ++ (toString test_number)
  ++ "\nTEST NUMBER:         "
  ++ (toString test_number)
  ++ " of "
  ++ (toString total_tests)
  ++ "\nTEST NAME:           "
  ++ scenario_name
  ++ "\nCREATED DATE:        "
  ++ date
  ++ "\nTEST TYPE:           Functional Test\nPRIORITY:            High\nAUTOMATION:          Planned\n\n"
  ++ eqLine
  ++ "\nTEST SUMMARY\n"
  ++ eqLine
  ++ "\n"
  ++ summary
  ++ "\n\n"
  ++ eqLine
  ++ "\nTEST OBJECTIVE\n"
  ++ eqLine
  ++ "\n"
  ++ scenario_name
  ++ "\n\nThis test validates the functionality described in "
  ++ ticket_key
  ++ " ensuring that the\nsystem behaves as expected according to the requirements and acceptance criteria.\n\n"
  ++ eqLine
  ++ "\nREQUIREMENTS REFERENCE\n"
  ++ eqLine
  ++ "\nTicket Description:\n"
  ++ (format_description description)
  ++ "\n\n"

def manual_plan_discussion_chunk (discussion_summary : String) : String :=
  "Additional Context from Discussions:\n"
  ++ (format_discussion_context discussion_summary)
  ++ "\n\n"

def manual_plan_preconditions_hdr : String :=
  eqLine
  ++ "\nTEST PRECONDITIONS\n"
  ++ eqLine
  ++ "\n"

def manual_plan_steps_hdr : String :=
  "\n"
  ++ eqLine
  ++ "\nTEST STEPS\n"
  ++ eqLine
  ++ "\n\n"

def manual_plan_step_block (step : TestStep) : String :=
  "Step "
  ++ (toString step.step_num)
  ++ ": ["
  ++ step.type_
  ++ "]\n"
  ++ dashLine
  ++ "\nAction:\n  "
  ++ step.action
  ++ "\n\nExpected Result:\n  "
  ++ step.expected
  ++ "\n\nActual Result:\n  [ TO BE FILLED DURING EXECUTION ]\n\nStatus: [ PASS / FAIL / BLOCKED ]\n\n"
  ++ eqLine
  ++ "\n\n"

def manual_plan_data_hdr : String :=
  eqLine
  ++ "\nTEST DATA REQUIREMENTS\n"
  ++ eqLine
  ++ "\n"

def manual_plan_expected_hdr : String :=
  "\n"
  ++ eqLine
  ++ "\nEXPECTED RESULTS SUMMARY\n"
  ++ eqLine
  ++ "\n"

def manual_plan_tail (ticket_key : String) (test_number : Nat) : String :=
  "\n"
  ++ eqLine
  ++ "\nPASS/FAIL CRITERIA\n"
  ++ eqLine
  ++ "\nPASS: All test steps execute successfully and all expected results are observed\nFAIL: Any test step fails or expected result is not observed\nBLOCKED: Test cannot be executed due to environment or dependency issues\n\n"
  ++ eqLine
  ++ "\nNOTES AND OBSERVATIONS\n"
  ++ eqLine
  ++ "\n[ TO BE FILLED DURING EXECUTION ]\n\nTester Name:     _____________________\nTest Date:       _____________________\nTest Duration:   _____________________\nEnvironment:     _____________________\nBuild/Version:   _____________________\n\nFinal Status:    [ PASS / FAIL / BLOCKED ]\n\n"
  ++ eqLine
  ++ "\nDEFECTS FOUND\n"
  ++ eqLine
  ++ "\nDefect ID | Severity | Description | Status\n"
  ++ dashLine
  ++ "\n[ TO BE FILLED IF DEFECTS ARE FOUND ]\n\n"
  ++ eqLine
  ++ "\nEND OF TEST PLAN - "
  ++ ticket_key
  ++ "_Test"
  ++ (toString test_number)
  ++ "\n"
  ++ eqLine
  ++ "\n"

def additional_plan_header (ticket_key : String) (test_number : Nat) (scenario : AdditionalScenario) (description : String) (date : String) : String :=
  eqLine
  ++ "\nMANUAL TEST PLAN - "
  ++ (pyUpper scenario.type_)
  ++ " TEST\n"
  ++ eqLine
  ++ "\n\nTICKET ID:           "
  ++ ticket_key
  ++ "\nTEST ID:             "
  ++ ticket_key
  ++ "_Test"
  ++ (toString test_number)
  ++ "\nTEST NUMBER:         "
  ++ (toString test_number)
  ++ "\nTEST NAME:           "
  ++ scenario.name
  ++ "\nCREATED DATE:        "
  ++ date
  ++ "\nTEST TYPE:           "
  ++ scenario.type_
  ++ " Test\nPRIORITY:            High\nAUTOMATION:          Planned\n\n"
  ++ eqLine
  ++ "\nTEST OBJECTIVE\n"
  ++ eqLine
  ++ "\n"
  ++ scenario.objective
  ++ "\n\nThis test ensures comprehensive coverage by validating "
  ++ (pyLower scenario.type_)
  ++ " scenarios\nthat complement the functional requirements specified in "
  ++ ticket_key
  ++ ".\n\n"
  ++ eqLine
  ++ "\nREQUIREMENTS REFERENCE\n"
  ++ eqLine
  ++ "\nBased on ticket: "
  ++ ticket_key
  ++ "\n\n"
  ++ (format_description description)
  ++ "\n\n"
  ++ eqLine
  ++ "\nTEST PRECONDITIONS\n"
  ++ eqLine
  ++ "\n1. All functional tests for "
  ++ ticket_key
  ++ " have been reviewed\n2. Test environment is stable and accessible\n3. Test data is prepared according to test type requirements\n4. Required user accounts and permissions are configured\n\n"
  ++ eqLine
  ++ "\nTEST STEPS\n"
  ++ eqLine
  ++ "\n\n"

def additional_plan_step_block (idx : Nat) (step : String × String) : String :=
  "Step "
  ++ (toString idx)
  ++ ":\n"
  ++ dashLine
  ++ "\nAction:\n  "
  ++ step.1
  ++ "\n\nExpected Result:\n  "
  ++ step.2
  ++ "\n\nActual Result:\n  [ TO BE FILLED DURING EXECUTION ]\n\nStatus: [ PASS / FAIL / BLOCKED ]\n\n"
  ++ eqLine
  ++ "\n\n"

def additional_plan_tail (ticket_key : String) (test_number : Nat) (scenario : AdditionalScenario) : String :=
  eqLine
  ++ "\nPASS/FAIL CRITERIA\n"
  ++ eqLine
  ++ "\nPASS: All validation points pass and system behaves according to "
  ++ (pyLower scenario.type_)
  ++ " test requirements\nFAIL: Any expected behavior is not observed or system behaves incorrectly\nBLOCKED: Test cannot be completed due to dependencies or environment issues\n\n"
  ++ eqLine
  ++ "\nNOTES AND OBSERVATIONS\n"
  ++ eqLine
  ++ "\n[ TO BE FILLED DURING EXECUTION ]\n\nThis "
  ++ (pyLower scenario.type_)
  ++ " test is critical for ensuring 100% test coverage and\nshould be executed as part of the comprehensive test suite for "
  ++ ticket_key
  ++ ".\n\nTester Name:     _____________________\nTest Date:       _____________________\nEnvironment:     _____________________\nBuild/Version:   _____________________\n\nFinal Status:    [ PASS / FAIL / BLOCKED ]\n\n"
  ++ eqLine
  ++ "\nEND OF TEST PLAN - "
  ++ ticket_key
  ++ "_Test"
  ++ (toString test_number)
  ++ "\n"
  ++ eqLine
  ++ "\n"

def additional_scenarios : List AdditionalScenario :=
[
  { name := "Negative Test - Invalid Input Data",
    objective := "Verify system handles invalid input gracefully",
    steps := [("Prepare invalid test data (empty, null, special characters)", "Test data is prepared"),
     ("Attempt to perform the operation with invalid data", "System rejects invalid input"),
     ("Verify appropriate error message is displayed", "Clear error message explains the validation failure"),
     ("Verify system state remains unchanged", "No data is corrupted or modified")],
    type_ := "Negative" },
  { name := "Boundary Test - Minimum Values",
    objective := "Verify system behavior at minimum boundary conditions",
    steps := [("Identify minimum acceptable values from requirements", "Boundaries are documented"),
     ("Test with minimum valid values", "Operation succeeds with minimum values"),
     ("Test with values below minimum (if applicable)", "System rejects or handles appropriately"),
     ("Verify data integrity at boundaries", "Data is stored and displayed correctly")],
    type_ := "Boundary" },
  { name := "Boundary Test - Maximum Values",
    objective := "Verify system behavior at maximum boundary conditions",
    steps := [("Identify maximum acceptable values from requirements", "Boundaries are documented"),
     ("Test with maximum valid values", "Operation succeeds with maximum values"),
     ("Test with values above maximum (if applicable)", "System rejects or handles appropriately"),
     ("Verify performance and response time", "System performs within acceptable limits")],
    type_ := "Boundary" },
  { name := "Security Test - Access Control",
    objective := "Verify proper authorization and access controls",
    steps := [("Attempt operation with unauthorized user", "Access is denied"),
     ("Verify appropriate error/permission message", "User receives clear permission denied message"),
     ("Test with user having partial permissions", "Only authorized actions are allowed"),
     ("Verify audit logs capture access attempts", "Security events are logged")],
    type_ := "Security" },
  { name := "Performance Test - Response Time",
    objective := "Verify system performs within acceptable time limits",
    steps := [("Execute operation with normal data load", "Baseline performance is established"),
     ("Measure response time for the operation", "Response time is within SLA requirements"),
     ("Test with increased data volume", "Performance degrades gracefully"),
     ("Verify no memory leaks or resource issues", "Resources are properly managed")],
    type_ := "Performance" },
  { name := "Usability Test - User Experience",
    objective := "Verify user interface is intuitive and accessible",
    steps := [("Navigate to the feature using normal user flow", "Navigation is intuitive"),
     ("Verify all UI elements are properly labeled", "Labels are clear and descriptive"),
     ("Test keyboard navigation and accessibility", "Feature is keyboard accessible"),
     ("Verify error messages are user-friendly", "Messages guide user to resolution")],
    type_ := "Usability" },
  { name := "Integration Test - External Dependencies",
    objective := "Verify proper integration with dependent systems",
    steps := [("Identify external system dependencies", "Dependencies are documented"),
     ("Test with all dependencies available", "Integration works correctly"),
     ("Test with dependency unavailable/timeout", "System handles failures gracefully"),
     ("Verify error handling and retry logic", "Appropriate error handling is in place")],
    type_ := "Integration" },
  { name := "Data Validation Test - Input Constraints",
    objective := "Verify all input validations are properly enforced",
    steps := [("Test with required fields missing", "Validation errors are shown"),
     ("Test with incorrect data types", "Type validation works correctly"),
     ("Test with data exceeding length limits", "Length constraints are enforced"),
     ("Test with SQL injection and XSS attempts", "Input sanitization prevents attacks")],
    type_ := "Validation" }
]

/-- `_create_manual_test_plan`. -/
def create_manual_test_plan (ticket_key : String) (test_number : Nat)
    (scenario : TestScenario) (summary description discussion_summary : String)
    (total_tests : Nat) (date : String) : String :=
  let test_steps := build_test_steps scenario
  let scenario_name := scenario.scenario
  let precondition_steps := test_steps.filter (fun s => s.type_ == "Precondition")
  let preconditions_body :=
    if precondition_steps != [] then
      String.join (precondition_steps.map
        (fun step => toString step.step_num ++ ". " ++ step.action ++ "\n"))
    else
      "1. Application is accessible and running\n"
      ++ "2. Test user has appropriate access rights\n"
      ++ "3. Test environment is properly configured\n"
  let steps_body := String.join (test_steps.map manual_plan_step_block)
  let data_body := String.join
    ((extract_test_data_requirements test_steps description).map
      (fun data_item => "- " ++ data_item ++ "\n"))
  let validation_steps := test_steps.filter (fun s => s.type_ == "Validation")
  let expected_body := String.join (validation_steps.mapIdx
    (fun i step => toString (i + 1) ++ ". " ++ step.expected ++ "\n"))
  manual_plan_header ticket_key test_number scenario_name summary description
      total_tests date
  ++ (if discussion_summary != "" then
        manual_plan_discussion_chunk discussion_summary
      else "")
  ++ manual_plan_preconditions_hdr
  ++ preconditions_body
  ++ manual_plan_steps_hdr
  ++ steps_body
  ++ manual_plan_data_hdr
  ++ data_body
  ++ manual_plan_expected_hdr
  ++ expected_body
  ++ manual_plan_tail ticket_key test_number

/-- `_create_additional_test_plan`  (its `discussion_summary` parameter is
unused in the source as well). -/
def create_additional_test_plan (ticket_key : String) (test_number : Nat)
    (scenario : AdditionalScenario) (description discussion_summary : String)
    (date : String) : String :=
  additional_plan_header ticket_key test_number scenario description date
  ++ String.join (scenario.steps.mapIdx
      (fun i step => additional_plan_step_block (i + 1) step))
  ++ additional_plan_tail ticket_key test_number scenario

/-- The contents loop of `_generate_additional_test_cases`, numbering
from `current_index`. -/
def additional_contents (ticket_key description discussion_summary date : String) :
    Nat → List AdditionalScenario → List String
  | _, [] => []
  | idx, sc :: rest =>
    create_additional_test_plan ticket_key idx sc description discussion_summary date
      :: additional_contents ticket_key description discussion_summary date (idx + 1) rest

/-- `_generate_additional_test_cases`. -/
def generate_additional_test_cases (ticket_key description discussion_summary : String)
    (starting_index : Nat) (date : String) : List String :=
  additional_contents ticket_key description discussion_summary date
    starting_index additional_scenarios

/-- The filename `{ticket_key}_Test{idx}.txt`. -/
def testPlanFileName (ticket_key : String) (idx : Nat) : String :=
  ticket_key ++ "_Test" ++ toString idx ++ ".txt"

/-- The per-scenario loop of `_generate_manual_test_plans`
(`enumerate(test_scenarios, start=1)`, here numbering from `idx`). -/
def scenario_plan_writes (output_dir ticket_key summary description
    discussion_summary : String) (total_tests : Nat) (date : String) :
    Nat → List TestScenario → List (String × String)
  | _, [] => []
  | idx, s :: rest =>
    (pathJoin output_dir (testPlanFileName ticket_key idx),
     create_manual_test_plan ticket_key idx s summary description
       discussion_summary total_tests date)
      :: scenario_plan_writes output_dir ticket_key summary description
           discussion_summary total_tests date (idx + 1) rest

/-- The additional-plans loop of `_generate_manual_test_plans`
(`enumerate(additional_tests, start=len(test_scenarios)+1)`). -/
def additional_plan_writes (output_dir ticket_key : String) :
    Nat → List String → List (String × String)
  | _, [] => []
  | idx, content :: rest =>
    (pathJoin output_dir (testPlanFileName ticket_key idx), content)
      :: additional_plan_writes output_dir ticket_key (idx + 1) rest

/-- `_generate_manual_test_plans`: writes as `(path, content)` pairs, in
write order. -/
def generate_manual_test_plans (ticket : Ticket) (analysis : Analysis)
    (output_dir : String) (date : String) : List (String × String) :=
  let ticket_key := analysis.ticket_key
  let description := ticket.description
  let summary := analysis.summary
  let discussion_summary := analysis.discussion_summary
  let test_scenarios := analysis.test_scenarios
  scenario_plan_writes output_dir ticket_key summary description
      discussion_summary test_scenarios.length date 1 test_scenarios
  ++ additional_plan_writes output_dir ticket_key (test_scenarios.length + 1)
      (generate_additional_test_cases ticket_key description discussion_summary
        (test_scenarios.length + 1) date)

/-- The Gherkin lines of one scenario of `_generate_feature_file`. -/
def feature_scenario_block (s : TestScenario) : List String :=
  ["  Scenario: " ++ s.scenario]
  ++ s.given.map (fun step => "    Given " ++ step)
  ++ s.when.map (fun step => "    When " ++ step)
  ++ s.then_.map (fun step => "    Then " ++ step)

/-- The scenario section of the feature file, blank-line separated
(`if i < len - 1: lines.append("")`). -/
def feature_scenario_lines : List TestScenario → List String
  | [] => []
  | [s] => feature_scenario_block s
  | s :: rest => feature_scenario_block s ++ [""] ++ feature_scenario_lines rest

/-- `_generate_feature_file`. -/
def generate_feature_file (analysis : Analysis) : String :=
  let base := ["Feature: " ++ analysis.summary,
               "  As a tester",
               "  I want to test " ++ analysis.ticket_key,
               "  So that the functionality works as expected",
               ""]
  let discussionBlock :=
    if analysis.discussion_summary != "" then
      ["  # Additional context from discussions:"]
      ++ (((analysis.discussion_summary.splitOn "\n\n").take 3).filter
            (fun l => pyStrip l != "")).map
          (fun l => "  # " ++ pyTake 100 (pyStrip l))
      ++ [""]
    else []
  String.intercalate "\n"
    (base ++ discussionBlock ++ feature_scenario_lines analysis.test_scenarios)

/-- `_generate_java_tests`: writes as `(path, content)` pairs. -/
def generate_java_tests (analysis : Analysis) (output_dir : String) :
    List (String × String) :=
  let class_name := replaceDashUnderscore analysis.ticket_key
  [(pathJoin output_dir "StepDefinitions.java", java_step_definitions class_name),
   (pathJoin output_dir "TestRunner.java",
    java_test_runner analysis.ticket_key class_name),
   (pathJoin output_dir "pom.xml", java_pom analysis.ticket_key)]

/-- `_generate_python_tests` (the `analysis` parameter is unused in the
source as well). -/
def generate_python_tests (analysis : Analysis) (output_dir : String) :
    List (String × String) :=
  [(pathJoin output_dir "step_definitions.py", python_step_definitions),
   (pathJoin output_dir "requirements.txt", python_requirements)]

/-- The dict returned by `generate_tests`, plus the file writes it
performed.  `datetime.now()` is passed in as `date` (the formatted
`"%B %d, %Y"` string); the default `OUTPUT_DIRECTORY` env value is the
`default_output_dir` parameter. -/
structure GenOutput where
  success : Bool
  files : List String
  message : String
  writes : List (String × String)
deriving DecidableEq, Repr

/-- `generate_tests`. -/
def generate_tests (ticket : Ticket) (language : String)
    (output_path : Option String) (default_output_dir : String) (date : String) :
    GenOutput :=
  let analysis := analyze_requirements ticket
  let ticket_key := ticket.key
  let output_directory := pathJoin (output_path.getD default_output_dir) ticket_key
  let feature := (pathJoin output_directory (ticket_key ++ ".feature"),
                  generate_feature_file analysis)
  let langFiles :=
    if language = "java" then generate_java_tests analysis output_directory
    else generate_python_tests analysis output_directory
  let manual := generate_manual_test_plans ticket analysis output_directory date
  let writes := feature :: langFiles
    ++ [(pathJoin output_directory "testng.xml", generate_testng_xml analysis),
        (pathJoin output_directory "README.md", generate_readme analysis language)]
    ++ manual
  { success := true
    files := writes.map Prod.fst
    message := "Generated " ++ toString (writes.map Prod.fst).length
      ++ " files for " ++ ticket_key
    writes := writes }

/-- The dict returned by `generate_gherkin_features`. -/
structure GherkinResult where
  success : Bool
  file : String
  content : String
deriving DecidableEq, Repr

/-- `generate_gherkin_features`, paired with the writes it performs
(none when `output_path` is absent). -/
def generate_gherkin_features (ticket : Ticket) (output_path : Option String) :
    GherkinResult × List (String × String) :=
  let analysis := analyze_requirements ticket
  let feature_content := generate_feature_file analysis
  let ticket_key := ticket.key
  match output_path with
  | some p =>
    let feature_path := pathJoin p (ticket_key ++ ".feature")
    (⟨true, feature_path, feature_content⟩, [(feature_path, feature_content)])
  | none => (⟨true, ticket_key ++ ".feature", feature_content⟩, [])

/-!
## `server.py`
-/

/-- The dict a tool returns: the failure shape has no `files` key,
modelled as `none`. -/
structure ToolReply where
  success : Bool
  message : String
  files : Option (List String)
deriving DecidableEq, Repr

/-- `f"Unsupported language: {language}. Use 'java' or 'python'"`. -/
def unsupported_language_message (language : String) : String :=
  "Unsupported language: " ++ language ++ ". Use \x27java\x27 or \x27python\x27"

/-- The `generate_test_scripts` tool.  The ticket fetch result is passed
in as an `Except` (`.error` models the `ValueError` raised by
`get_ticket_with_discussions`, which the tool does not catch); note the
source fetches the ticket before checking `language`. -/
def server_generate_test_scripts (fetchResult : Except String Ticket)
    (language : String) (output_path : Option String)
    (default_output_dir : String) (date : String) :
    Except String (ToolReply × List (String × String)) :=
  match fetchResult with
  | .error e => .error e
  | .ok ticket =>
    if language ≠ "java" ∧ language ≠ "python" then
      .ok (⟨false, unsupported_language_message language, none⟩, [])
    else
      let g := generate_tests ticket language output_path default_output_dir date
      .ok (⟨g.success, g.message, some g.files⟩, g.writes)


/-!
## Auxiliary definitions for the theorems
-/

/-- The expected manual-plan path list: `n` consecutive
`{key}_Test{i}.txt` names starting at index `idx`, joined onto `dir`. -/
def planNames (dir key : String) : Nat → Nat → List String
  | _, 0 => []
  | idx, n + 1 =>
    pathJoin dir (testPlanFileName key idx) :: planNames dir key (idx + 1) n

/-- Rank of a complexity level in the ordering low < medium < high. -/
def complexityRank (c : String) : Nat :=
  if c = "low" then 0 else if c = "medium" then 1 else 2

/-- A concrete ticket (empty description/summary/discussions) used to
instantiate theorems. -/
def sampleTicket : Ticket := ⟨"T-1", "", "", [], ""⟩

/-!
## Helper lemmas
-/

lemma planNames_length (dir key : String) :
    ∀ (n idx : Nat), (planNames dir key idx n).length = n := by
  intro n
  induction n with
  | zero => intro idx; rfl
  | succ n ih => intro idx; simp [planNames, ih]

lemma planNames_append (dir key : String) :
    ∀ (n m idx : Nat),
      planNames dir key idx n ++ planNames dir key (idx + n) m =
        planNames dir key idx (n + m) := by
  intro n
  induction n with
  | zero => intro m idx; simp [planNames]
  | succ n ih =>
    intro m idx
    rw [show n + 1 + m = (n + m) + 1 from by omega]
    simp only [planNames, List.cons_append]
    rw [show idx + (n + 1) = (idx + 1) + n from by omega, ih]

lemma scenario_plan_writes_map_fst (dir key summ desc disc : String)
    (total : Nat) (date : String) :
    ∀ (l : List TestScenario) (idx : Nat),
      (scenario_plan_writes dir key summ desc disc total date idx l).map Prod.fst =
        planNames dir key idx l.length := by
  intro l
  induction l with
  | nil => intro idx; rfl
  | cons s rest ih => intro idx; simp [scenario_plan_writes, planNames, ih]

lemma additional_plan_writes_map_fst (dir key : String) :
    ∀ (l : List String) (idx : Nat),
      (additional_plan_writes dir key idx l).map Prod.fst =
        planNames dir key idx l.length := by
  intro l
  induction l with
  | nil => intro idx; rfl
  | cons c rest ih => intro idx; simp [additional_plan_writes, planNames, ih]

lemma additional_contents_length (key desc disc date : String) :
    ∀ (l : List AdditionalScenario) (idx : Nat),
      (additional_contents key desc disc date idx l).length = l.length := by
  intro l
  induction l with
  | nil => intro idx; rfl
  | cons sc rest ih => intro idx; simp [additional_contents, ih]

lemma generate_additional_test_cases_length (key desc disc : String)
    (start : Nat) (date : String) :
    (generate_additional_test_cases key desc disc start date).length = 8 := by
  unfold generate_additional_test_cases
  rw [additional_contents_length]
  rfl

lemma generate_manual_test_plans_names (ticket : Ticket) (analysis : Analysis)
    (output_dir date : String) :
    (generate_manual_test_plans ticket analysis output_dir date).map Prod.fst =
      planNames output_dir analysis.ticket_key 1
        (analysis.test_scenarios.length + 8) := by
  simp only [generate_manual_test_plans]
  rw [List.map_append, scenario_plan_writes_map_fst, additional_plan_writes_map_fst,
      generate_additional_test_cases_length]
  rw [show analysis.test_scenarios.length + 1 = 1 + analysis.test_scenarios.length
        from by omega,
      planNames_append]

lemma combined_mem_shape (d s ds : String) (sc : TestScenario)
    (h : sc ∈ combined_scenarios d s ds) :
    (∃ m, sc = mkGwtScenario s m) ∨ (∃ t, sc = discussionScenario t) := by
  unfold combined_scenarios at h
  rcases List.mem_append.mp h with h | h
  · unfold gwt_scenarios at h
    obtain ⟨m, _, rfl⟩ := List.mem_map.mp h
    exact Or.inl ⟨m, rfl⟩
  · by_cases hds : ds ≠ ""
    · rw [if_pos hds] at h
      unfold extract_scenarios_from_discussions at h
      obtain ⟨t, _, rfl⟩ := List.mem_map.mp h
      exact Or.inr ⟨t, rfl⟩
    · rw [if_neg hds] at h
      exact absurd h (List.not_mem_nil sc)

lemma rank_calculate (s : List TestScenario) (d : String) :
    complexityRank (calculate_complexity s d) =
      if s.length ≤ 2 ∧ d.length < 500 then 0
      else if s.length ≤ 5 ∧ d.length < 1500 then 1 else 2 := by
  unfold calculate_complexity
  split_ifs <;> decide

lemma isPrefixSeq_append (pre rest : List Char) :
    isPrefixSeq pre (pre ++ rest) = true := by
  induction pre with
  | nil => rfl
  | cons c cs ih => simp [isPrefixSeq, ih]

lemma containsSeq_of_isPrefixSeq (needle hay : List Char)
    (h : isPrefixSeq needle hay = true) : containsSeq needle hay = true := by
  cases hay with
  | nil => simpa [containsSeq] using h
  | cons c rest => simp [containsSeq, h]

lemma unsupported_message_contains (language : String) :
    containsStr (unsupported_language_message language) "Unsupported language" = true := by
  unfold containsStr unsupported_language_message
  apply containsSeq_of_isPrefixSeq
  show isPrefixSeq ("Unsupported language" : String).data
      ("Unsupported language: " ++ language
        ++ ". Use \x27java\x27 or \x27python\x27").data = true
  rw [show ("Unsupported language: " : String) = "Unsupported language" ++ ": "
        from by decide]
  rw [String.data_append, String.data_append, String.data_append,
      List.append_assoc, List.append_assoc]
  exact isPrefixSeq_append _ _

/-!
## The claims
-/

/-- **C1**: for every description, summary and discussion-summary input,
`_extract_test_scenarios` returns a non-empty list in which every
`TestScenario` has at least one entry in each of given, when and then;
and when the inputs are all empty it returns exactly one fallback
scenario labeled `"Test {summary}"` whose given/when/then are the three
fixed fallback strings (`fallbackScenario`). -/
theorem c1_extract_scenarios_nonempty_invariant_and_fallback (d s ds : String) :
    extract_test_scenarios d s ds ≠ [] ∧
    (∀ sc ∈ extract_test_scenarios d s ds,
      sc.given ≠ [] ∧ sc.when ≠ [] ∧ sc.then_ ≠ []) ∧
    (d = "" ∧ s = "" ∧ ds = "" →
      extract_test_scenarios d s ds = [fallbackScenario s]) := by
  refine ⟨?_, ?_, ?_⟩
  · unfold extract_test_scenarios
    split <;> simp_all
  · intro sc h
    unfold extract_test_scenarios at h
    split at h
    · rw [List.mem_singleton] at h
      subst h
      refine ⟨?_, ?_, ?_⟩ <;> simp [fallbackScenario]
    · rcases combined_mem_shape d s ds sc h with ⟨m, rfl⟩ | ⟨t, rfl⟩
      · exact ⟨by simp [mkGwtScenario], by simp [mkGwtScenario],
          by simp [mkGwtScenario]⟩
      · exact ⟨by simp [discussionScenario], by simp [discussionScenario],
          by simp [discussionScenario]⟩
  · rintro ⟨rfl, rfl, rfl⟩
    decide

theorem c1_witness :
    extract_test_scenarios "" "" "" = [fallbackScenario ""] :=
  (c1_extract_scenarios_nonempty_invariant_and_fallback "" "" "").2.2 ⟨rfl, rfl, rfl⟩

/-- **C3**: for the description
`"Given user is logged in\nWhen user clicks submit\nThen order is placed"`
(any summary, empty discussion summary), `_extract_test_scenarios` yields
at least one scenario with given `["user is logged in"]`, when
`["user clicks submit"]` and then `["order is placed"]` (case-insensitive
keyword match, whitespace-trimmed captures). -/
theorem c3_gwt_example_extraction (summary : String) :
    ∃ sc ∈ extract_test_scenarios
        "Given user is logged in\nWhen user clicks submit\nThen order is placed"
        summary "",
      sc.given = ["user is logged in"] ∧ sc.when = ["user clicks submit"] ∧
      sc.then_ = ["order is placed"] := by
  have hg : gwtFindAll
      ("Given user is logged in\nWhen user clicks submit\nThen order is placed"
        ++ "\n\n" ++ "") =
      [("user is logged in", "user clicks submit", "order is placed")] := by
    decide
  have hcomb : combined_scenarios
      "Given user is logged in\nWhen user clicks submit\nThen order is placed"
      summary "" =
      [mkGwtScenario summary
        ("user is logged in", "user clicks submit", "order is placed")] := by
    unfold combined_scenarios gwt_scenarios
    rw [hg]
    simp
  refine ⟨mkGwtScenario summary
      ("user is logged in", "user clicks submit", "order is placed"),
    ?_, ?_, ?_, ?_⟩
  · unfold extract_test_scenarios
    rw [hcomb]
    simp
  · show [pyStrip "user is logged in"] = ["user is logged in"]
    decide
  · show [pyStrip "user clicks submit"] = ["user clicks submit"]
    decide
  · show [pyStrip "order is placed"] = ["order is placed"]
    decide

/-- **C4**: `_calculate_complexity` returns low / medium / high exactly by
the documented thresholds, and it is monotone in scenario count and
description length under the ordering low < medium < high. -/
theorem c4_complexity_cases_and_monotone (s1 s2 : List TestScenario)
    (d1 d2 : String) :
    (s1.length ≤ 2 ∧ d1.length < 500 → calculate_complexity s1 d1 = "low") ∧
    (¬(s1.length ≤ 2 ∧ d1.length < 500) → s1.length ≤ 5 ∧ d1.length < 1500 →
      calculate_complexity s1 d1 = "medium") ∧
    (¬(s1.length ≤ 2 ∧ d1.length < 500) → ¬(s1.length ≤ 5 ∧ d1.length < 1500) →
      calculate_complexity s1 d1 = "high") ∧
    (s1.length ≤ s2.length → d1.length ≤ d2.length →
      complexityRank (calculate_complexity s1 d1) ≤
        complexityRank (calculate_complexity s2 d2)) := by
  refine ⟨?_, ?_, ?_, ?_⟩
  · intro h; unfold calculate_complexity; rw [if_pos h]
  · intro h1 h2; unfold calculate_complexity; rw [if_neg h1, if_pos h2]
  · intro h1 h2; unfold calculate_complexity; rw [if_neg h1, if_neg h2]
  · intro hs hd
    rw [rank_calculate, rank_calculate]
    split_ifs <;> omega

theorem c4_witness :
    calculate_complexity ([] : List TestScenario) "" = "low" ∧
    calculate_complexity
      [fallbackScenario "", fallbackScenario "", fallbackScenario ""] "" =
      "medium" ∧
    complexityRank (calculate_complexity ([] : List TestScenario) "") ≤
      complexityRank (calculate_complexity
        [fallbackScenario "", fallbackScenario "", fallbackScenario ""] "") :=
  ⟨(c4_complexity_cases_and_monotone [] [] "" "").1 (by decide),
   (c4_complexity_cases_and_monotone
      [fallbackScenario "", fallbackScenario "", fallbackScenario ""] [] "" "").2.1
     (by decide) (by decide),
   (c4_complexity_cases_and_monotone []
      [fallbackScenario "", fallbackScenario "", fallbackScenario ""] "" "").2.2.2
     (by decide) (by decide)⟩

/-- **C5**: `_generate_manual_test_plans` always produces exactly `N + 8`
files for `N` extracted scenarios — one per scenario followed by the 8
fixed supplementary plans — named `{key}_Test1.txt` …
`{key}_Test(N+8).txt` consecutively, no gaps, in that order. -/
theorem c5_manual_plan_count_and_names (ticket : Ticket) (analysis : Analysis)
    (output_dir date : String) :
    (generate_manual_test_plans ticket analysis output_dir date).length =
      analysis.test_scenarios.length + 8 ∧
    (generate_manual_test_plans ticket analysis output_dir date).map Prod.fst =
      planNames output_dir analysis.ticket_key 1
        (analysis.test_scenarios.length + 8) := by
  have hmap := generate_manual_test_plans_names ticket analysis output_dir date
  refine ⟨?_, hmap⟩
  have hlen := congrArg List.length hmap
  rwa [List.length_map, planNames_length] at hlen

set_option maxRecDepth 10000 in
/-- **C2** (counterexample): full generation with byte-identical ticket
input and the same output directory does *not* produce byte-identical
files on both runs — `_get_current_date` stamps `datetime.now()` into
every manual test plan, so two runs that format different dates differ. -/
theorem c2_cex :
    generate_tests sampleTicket "java" none "./generated-tests" "January 01, 2025" ≠
      generate_tests sampleTicket "java" none "./generated-tests" "May 07, 2025" := by
  intro h
  have h6 := congrArg (fun o => (o.writes.get? 6).map Prod.snd) h
  exact absurd h6 (by decide)

/-- **C2** (amended): two runs of `generate_tests` with byte-identical
input write the same file paths regardless of the date, and produce
byte-identical contents provided both runs format the same current date
(e.g. run on the same day). -/
theorem c2_amended (ticket : Ticket) (language : String)
    (output_path : Option String) (default_output_dir d1 d2 : String) :
    (generate_tests ticket language output_path default_output_dir d1).files =
      (generate_tests ticket language output_path default_output_dir d2).files ∧
    (d1 = d2 →
      generate_tests ticket language output_path default_output_dir d1 =
        generate_tests ticket language output_path default_output_dir d2) := by
  constructor
  · simp only [generate_tests, List.map_cons, List.map_append,
      generate_manual_test_plans_names]
  · intro h; rw [h]

theorem c2_witness :
    (generate_tests sampleTicket "java" none "./generated-tests"
        "January 01, 2025").files =
      (generate_tests sampleTicket "java" none "./generated-tests"
        "May 07, 2025").files ∧
    generate_tests sampleTicket "java" none "./generated-tests" "January 01, 2025" =
      generate_tests sampleTicket "java" none "./generated-tests"
        "January 01, 2025" :=
  ⟨(c2_amended sampleTicket "java" none "./generated-tests"
      "January 01, 2025" "May 07, 2025").1,
   (c2_amended sampleTicket "java" none "./generated-tests"
      "January 01, 2025" "January 01, 2025").2 rfl⟩

/-- **C6**: when the ticket fetch succeeds but the comment fetch fails,
`get_ticket_with_discussions` still returns the ticket, with
`discussions = []` and `discussion_summary = ""`, rather than propagating
the comment-fetch error. -/
theorem c6_comment_failure_partial_degradation (t : TicketDict) (e : String) :
    get_ticket_with_discussions (Except.ok t) (Except.error e) =
      Except.ok ⟨t.key, t.description, t.summary, [], ""⟩ := rfl

/-- **C7** (counterexample): with an unsupported language the tool does
*not* always return a structured failure without raising: the ticket is
fetched first, so a fetch failure propagates as a raised error before the
language check ever runs. -/
theorem c7_cex :
    server_generate_test_scripts (Except.error "Failed to fetch ticket: boom")
        "go" none "./generated-tests" "January 01, 2025" =
      Except.error "Failed to fetch ticket: boom" := rfl

/-- **C7** (amended): provided the ticket fetch succeeds, every language
other than `"java"`/`"python"` yields
`{success: false, message: "Unsupported language: ..."}` with no files
written; the rejection happens after the ticket fetch but before any
generation work. -/
theorem c7_amended (ticket : Ticket) (language : String)
    (output_path : Option String) (default_output_dir date : String)
    (h1 : language ≠ "java") (h2 : language ≠ "python") :
    server_generate_test_scripts (Except.ok ticket) language output_path
        default_output_dir date =
      Except.ok (⟨false, unsupported_language_message language, none⟩, []) ∧
    containsStr (unsupported_language_message language)
        "Unsupported language" = true := by
  refine ⟨?_, unsupported_message_contains language⟩
  show (if language ≠ "java" ∧ language ≠ "python" then _ else _) = _
  rw [if_pos ⟨h1, h2⟩]

theorem c7_witness :
    server_generate_test_scripts (Except.ok sampleTicket) "go" none
        "./generated-tests" "January 01, 2025" =
      Except.ok (⟨false, unsupported_language_message "go", none⟩, []) :=
  (c7_amended sampleTicket "go" none "./generated-tests" "January 01, 2025"
    (by decide) (by decide)).1

/-- **C8**: `_extract_test_data_requirements` returns at most 10 entries
with no duplicates, and the deduplication (`set`) is applied before the
10-item truncation. -/
theorem c8_test_data_dedup_capped (test_steps : List TestStep)
    (description : String) :
    (extract_test_data_requirements test_steps description).length ≤ 10 ∧
    (extract_test_data_requirements test_steps description).Nodup ∧
    extract_test_data_requirements test_steps description =
      ((raw_data_requirements test_steps description).dedup).take 10 := by
  refine ⟨?_, ?_, rfl⟩
  · unfold extract_test_data_requirements
    rw [List.length_take]
    exact min_le_left _ _
  · unfold extract_test_data_requirements
    exact List.Nodup.sublist (List.take_sublist _ _) (List.nodup_dedup _)

/-- **C9** (counterexample): a Given-When-Then match yields a scenario
whose label is `"Scenario: "` followed by the summary — not the summary
itself as the claim states. -/
theorem c9_cex :
    (gwt_scenarios ("Given a\nWhen b\nThen c" ++ "\n\n" ++ "") "S").map
        TestScenario.scenario = ["Scenario: S"] ∧
    ("Scenario: S" : String) ≠ "S" :=
  ⟨by decide, by decide⟩

/-- **C9** (amended): every Given-When-Then match over the combined text
yields a scenario whose label equals `"Scenario: "` followed by the
ticket summary. -/
theorem c9_amended (combined summary : String) :
    ∀ sc ∈ gwt_scenarios combined summary,
      sc.scenario = "Scenario: " ++ summary := by
  intro sc h
  obtain ⟨m, _, rfl⟩ := List.mem_map.mp h
  rfl

theorem c9_witness :
    (mkGwtScenario "S" ("a", "b", "c")).scenario = "Scenario: " ++ "S" :=
  c9_amended ("Given a\nWhen b\nThen c" ++ "\n\n" ++ "") "S"
    (mkGwtScenario "S" ("a", "b", "c")) (by decide)

/-- **C10**: `generate_gherkin_features` with no output path writes no
files: it returns success with `file` the bare `{ticketKey}.feature`
name and the rendered content, and its write set is empty. -/
theorem c10_gherkin_no_output_path_writes_nothing (ticket : Ticket) :
    generate_gherkin_features ticket none =
      (⟨true, ticket.key ++ ".feature",
        generate_feature_file (analyze_requirements ticket)⟩, []) := rfl


end JiraMCP
